import Mathlib

/-!
A verification development for the Cyberiada Ursula game-engine log analyzer
(`ursulalogcheck.c`).  The C code is shallowly embedded: C strings become
`List Char`, the log file becomes a `List Line` (one entry per line, newline
stripped, in file order), and the mutable per-task fields
(`BaseObject.valid`, `ObjectReq.found`) are threaded explicitly through a
`ValState`.  C `float` values are modelled as exact rationals: the type `Q`
below is an unnormalized fraction (integer numerator over positive natural
denominator) whose arithmetic and comparisons are implemented with plain
integer arithmetic, so that every definition evaluates inside the kernel.
`DIST(p,q) <= a` (where `DIST` is the Euclidean distance computed with
`sqrt`) is modelled by the equivalent exact comparisons on squared
distances: `dist <= a  <->  0 <= a /\ dist^2 <= a^2`, `dist < dist'  <->
dist^2 < dist'^2`, `dist > 0  <->  dist^2 > 0`.  The SHA-256 digest is out
of scope (a black-box function of its input string), so the signature is
modelled by the exact tuple `(secret, task_name, salt, result)` that the C
code feeds into `snprintf`/`sha256_hash`; two runs produce the same
signature hex iff they produce the same tuple.
-/

/-! ## Exact rational numbers standing for C floats -/

/-- An unnormalized fraction `num / den` (with `den` intended positive).
    Comparisons cross-multiply, so no gcd normalization is ever needed and
    all operations reduce in the kernel. -/
structure Q where
  num : Int
  den : Nat
  deriving DecidableEq

def Q.ofInt (n : Int) : Q := ⟨n, 1⟩

def Q.add (a b : Q) : Q := ⟨a.num * b.den + b.num * a.den, a.den * b.den⟩

def Q.sub (a b : Q) : Q := ⟨a.num * b.den - b.num * a.den, a.den * b.den⟩

def Q.mul (a b : Q) : Q := ⟨a.num * b.num, a.den * b.den⟩

/-- `a <= b` as values (cross-multiplication; denominators positive). -/
def Q.le (a b : Q) : Bool := decide (a.num * b.den ≤ b.num * a.den)

/-- `a < b` as values. -/
def Q.lt (a b : Q) : Bool := decide (a.num * b.den < b.num * a.den)

/-- Value equality (`==` on C floats). -/
def Q.eqv (a b : Q) : Bool := decide (a.num * b.den = b.num * a.den)

def Q.zero : Q := ⟨0, 1⟩

/-! ## The internal structures of `ursulalogcheck.c` -/

/-- `Point`: a pair of coordinates (C: two floats). -/
structure Point where
  x : Q
  y : Q
  deriving DecidableEq

/-- `ObjectType`: the closed enumeration `otPlayer | otMob | otIntObject |
    otStatic`. -/
inductive ObjectType
  | player
  | mob
  | intObject
  | static
  deriving DecidableEq

/-- `ConditionType`: the closed enumeration of condition kinds. -/
inductive ConditionType
  | objectProximity
  | objectApproaching
  | objectRetiring
  | objectMoving
  | gameWon
  | attacked
  | damaged
  | destroyed
  deriving DecidableEq

/-- Runtime `Object` built from the log scene.  The C `class` and `id`
    fields are `char*` that are NULL exactly for the synthesized Player, so
    they are modelled as `Option String`. -/
structure Object where
  type : ObjectType
  cls : Option String
  id : Option String
  pos : Point
  prev_pos : Point
  hp : Q
  damage : Q
  pos_predefined : Bool
  deriving DecidableEq

/-- A config `base` object (the C code reuses `Object` for these; their
    `class` string is always non-NULL because `copy_string` is called with a
    non-NULL source, so it is a plain `String` here). -/
structure BaseObject where
  type : ObjectType
  cls : String
  pos : Point
  pos_predefined : Bool
  hp : Q
  damage : Q
  deriving DecidableEq

/-- `ObjectReq`: a cardinality requirement from the config.  The mutable
    `found` counter lives in `ValState`, not here. -/
structure ObjectReq where
  type : ObjectType
  cls : String
  minimum : Nat
  limit : Nat
  deriving DecidableEq

/-- The payload of one condition row (`Condition` without the
    `second_cond` pointer). -/
structure CondCore where
  n : Nat
  ctype : ConditionType
  primary_obj_type : ObjectType
  primary_obj_class : String
  secondary_obj_type : ObjectType
  secondary_obj_class : String
  argument : Q
  deriving DecidableEq

/-- A loaded `Condition`: a core plus an optional AND operand
    (`second_cond`); the config loader allows exactly one level of
    nesting. -/
structure Condition where
  core : CondCore
  second_cond : Option CondCore
  deriving DecidableEq

/-- `UrsulaCheckerTask` minus the mutable scene-matching fields. -/
structure UrsulaCheckerTask where
  name : String
  base_objects : List BaseObject
  object_reqs : List ObjectReq
  conditions : List Condition
  deriving DecidableEq

/-- The transient per-task state mutated by `check_log`:
    `BaseObject.valid` flags (one per base object) and `ObjectReq.found`
    counters (one per requirement).  The C code never resets these between
    invocations. -/
structure ValState where
  valid : List Bool
  found : List Nat
  deriving DecidableEq

/-- `DELTA = 0.001`. -/
def DELTA : Q := ⟨1, 1000⟩

/-- Squared Euclidean distance, the exact counterpart of `DIST(p1,p2)^2`. -/
def distSq (p1 p2 : Point) : Q :=
  ((p1.x.sub p2.x).mul (p1.x.sub p2.x)).add ((p1.y.sub p2.y).mul (p1.y.sub p2.y))

/-! ## Lexical helpers (strings as `List Char`) -/

/-- One log or config line with the trailing newline stripped. -/
abbrev Line := List Char

def isBlankCh (c : Char) : Bool := c == ' ' || c == '\t'

/-- Drop leading spaces and tabs (the `while (*s == ' ' || *s == '\t')`
    idiom). -/
def dropSpaces (s : List Char) : List Char := s.dropWhile isBlankCh

/-- `strchr`: split at the first occurrence of `c`, if any. -/
def splitFirst (c : Char) : List Char → Option (List Char × List Char)
  | [] => none
  | x :: xs =>
    if x = c then some ([], xs)
    else match splitFirst c xs with
      | some (a, b) => some (x :: a, b)
      | none => none

/-- Split on every occurrence of `c`. -/
def splitAllChar (c : Char) : List Char → List (List Char)
  | [] => [[]]
  | x :: xs =>
    if x = c then [] :: splitAllChar c xs
    else match splitAllChar c xs with
      | h :: t => (x :: h) :: t
      | [] => [[x]]

/-- Take `n` `c`-separated tokens and return them plus the remainder
    (the repeated `d = strchr(s, c); *d = 0; s = d + 1` loop); `none` when a
    separator is missing. -/
def splitN (c : Char) : Nat → List Char → Option (List (List Char) × List Char)
  | 0, s => some ([], s)
  | n + 1, s =>
    match splitFirst c s with
    | none => none
    | some (tok, rest) =>
      match splitN c n rest with
      | none => none
      | some (toks, r) => some (tok :: toks, r)

/-- `strstr(hay, needle) != NULL`. -/
def containsSub (needle hay : List Char) : Bool :=
  (List.range (hay.length + 1)).any (fun k => needle.isPrefixOf (hay.drop k))

/-- Trim spaces/tabs on both sides (the scene-row token trimming: the left
    trim runs first, so the right trim never has to preserve a character). -/
def trimBoth (s : List Char) : List Char :=
  ((s.dropWhile isBlankCh).reverse.dropWhile isBlankCh).reverse

/-- `atof` modelled exactly: skip leading blanks, optional sign, integer
    digits, optional `.` and fraction digits; anything unparsable yields 0
    (exponents never occur in the analyzed files). -/
def readNatDigits : List Char → Nat → Nat × Nat × List Char
  | c :: cs, acc =>
    if c.isDigit then
      let (v, k, r) := readNatDigits cs (acc * 10 + (c.toNat - 48))
      (v, k + 1, r)
    else (acc, 0, c :: cs)
  | [], acc => (acc, 0, [])

def atofQ (s : List Char) : Q :=
  let s := dropSpaces s
  let (neg, s) :=
    match s with
    | '-' :: t => (true, t)
    | '+' :: t => (false, t)
    | _ => (false, s)
  let (ip, _, s) := readNatDigits s 0
  let (fv, fl) :=
    match s with
    | '.' :: t =>
      let (v, k, _) := readNatDigits t 0
      (v, k)
    | _ => (0, 0)
  let n : Int := Int.ofNat (ip * 10 ^ fl + fv)
  ⟨if neg then -n else n, 10 ^ fl⟩

/-- Trailing trim of `parse_coordinates`: strips `' '`, `'\t'`, `')'` from
    the right but never touches the first character (`while (d > s && ...)`). -/
def trimCoordR (s : List Char) : List Char :=
  match s with
  | [] => []
  | c0 :: rest =>
    c0 :: (rest.reverse.dropWhile (fun c => c == ' ' || c == '\t' || c == ')')).reverse

/-- `parse_coordinates`: skip leading blanks and `'('`, right-trim blanks
    and `')'`, split at the first `','` (missing comma yields
    `URSULA_CHECK_FORMAT_ERROR = 2`), `atof` both halves. -/
def parseCoordinates (s0 : List Char) : Except Nat Point :=
  let s := s0.dropWhile (fun c => c == ' ' || c == '\t' || c == '(')
  let s := trimCoordR s
  match splitFirst ',' s with
  | none => .error 2
  | some (a, b) => .ok ⟨atofQ a, atofQ b⟩

/-! ## The log-file literals -/

def LOG_PLAYER_START_POSITION : List Char := "Player Start Position".data
def LOG_SCENE_OBJECT_HEADER : List Char :=
  "ID | Name | Object ID | Type | Position | HP | Damage".data
def LOG_HLINE : List Char := "---".data
def LOG_MOB : List Char := "mob".data
def LOG_INT_OBJECT : List Char := "interactive_object".data
def LOG_POSITION : List Char := "position:".data
def LOG_PLAYER : List Char := "Player".data
def LOG_ATTACK : List Char := "attack ".data
def LOG_ATTACKED : List Char := "attacked ".data
def LOG_DIED : List Char := "died".data
def LOG_GAME_OVER : List Char := "Game Over: ".data
def LOG_WIN : List Char := "Win".data
def LOG_SESSION_ENDED : List Char := "Session ended".data

/-! ## The condition evaluator (`cyberiada_test_condition`) -/

/-- `strcmp(o->class, c) == 0` under the guard `o->type != otPlayer`.  A
    `none` class (NULL pointer) cannot reach this comparison in a run: all
    non-Player runtime objects carry a class parsed from the log, and the
    Player is short-circuited by the `type == otPlayer` disjunct. -/
def classEq : Option String → String → Bool
  | some s, c => decide (s = c)
  | none, _ => false

/-- `strcmp(o->class, c)` used as a truth value (the comparison the source
    writes WITHOUT `== 0` in the Moving/Damaged/Destroyed branches): true
    exactly when the strings differ. -/
def classNe : Option String → String → Bool
  | some s, c => decide (s ≠ c)
  | none, _ => true

/-- The object filter `type == T && (type == otPlayer || (type != otPlayer
    && strcmp(class, C) == 0))` used by Proximity/Approaching/Retiring/
    Attacked. -/
def matchEq (o : Object) (t : ObjectType) (c : String) : Bool :=
  decide (o.type = t) &&
    (decide (o.type = ObjectType.player) ||
      (decide (o.type ≠ ObjectType.player) && classEq o.cls c))

/-- The object filter with the missing `== 0` (Moving/Damaged/Destroyed):
    `type == T && (type == otPlayer || (type != otPlayer &&
    strcmp(class, C)))`. -/
def matchNe (o : Object) (t : ObjectType) (c : String) : Bool :=
  decide (o.type = t) &&
    (decide (o.type = ObjectType.player) ||
      (decide (o.type ≠ ObjectType.player) && classNe o.cls c))

/-- `DIST(p1,p2) <= a` (on floats, via `sqrt`): exactly `0 <= a` and
    `distSq <= a^2`. -/
def distLe (p1 p2 : Point) (a : Q) : Bool :=
  Q.le Q.zero a && Q.le (distSq p1 p2) (a.mul a)

/-- The `for (i ...) for (j ...)` scan of the world-state pair conditions,
    iterating the outer index over the given index list (always
    `List.range objs.length`).  The outer index is written into
    `*primary_index` on every iteration, so when no pair matches the
    returned index is the last examined one. -/
def findPairAux (objs : List Object) (p : Object → Object → Bool) :
    List Nat → Nat → Bool × Nat
  | [], pi => (false, pi)
  | i :: is, pi =>
    match objs.get? i with
    | none => (false, pi)
    | some a =>
      if (List.range objs.length).any (fun j =>
          decide (j ≠ i) &&
            match objs.get? j with
            | some b => p a b
            | none => false) then
        (true, i)
      else findPairAux objs p is i

def findPair (objs : List Object) (p : Object → Object → Bool) (pi : Nat) :
    Bool × Nat :=
  findPairAux objs p (List.range objs.length) pi

/-- The single-loop scan of `condObjectMoving`. -/
def findOneAux (objs : List Object) (p : Object → Bool) :
    List Nat → Nat → Bool × Nat
  | [], pi => (false, pi)
  | i :: is, pi =>
    match objs.get? i with
    | none => (false, pi)
    | some a => if p a then (true, i) else findOneAux objs p is i

def findOne (objs : List Object) (p : Object → Bool) (pi : Nat) :
    Bool × Nat :=
  findOneAux objs p (List.range objs.length) pi

/-- One `cyberiada_test_condition` dispatch on a condition core (no
    `second_cond` handling).  Returns the `found` flag and the final value
    of `*primary_index`. -/
def testCore (cond : CondCore) (objs : List Object) (primary : Option Object)
    (pi : Nat) (secondary : Option Object) (argument : Q) (won : Bool) :
    Bool × Nat :=
  match cond.ctype with
  | .objectProximity =>
    findPair objs
      (fun a b =>
        matchEq a cond.primary_obj_type cond.primary_obj_class &&
        matchEq b cond.secondary_obj_type cond.secondary_obj_class &&
        distLe a.pos b.pos cond.argument)
      pi
  | .objectApproaching =>
    findPair objs
      (fun a b =>
        matchEq a cond.primary_obj_type cond.primary_obj_class &&
        matchEq b cond.secondary_obj_type cond.secondary_obj_class &&
        Q.lt (distSq a.pos b.pos) (distSq a.prev_pos b.prev_pos))
      pi
  | .objectRetiring =>
    findPair objs
      (fun a b =>
        matchEq a cond.primary_obj_type cond.primary_obj_class &&
        matchEq b cond.secondary_obj_type cond.secondary_obj_class &&
        Q.lt (distSq a.prev_pos b.prev_pos) (distSq a.pos b.pos))
      pi
  | .objectMoving =>
    findOne objs
      (fun a =>
        matchNe a cond.primary_obj_type cond.primary_obj_class &&
        Q.lt Q.zero (distSq a.pos a.prev_pos))
      pi
  | .attacked =>
    match primary, secondary with
    | some p, some s =>
      (matchEq p cond.primary_obj_type cond.primary_obj_class &&
       matchEq s cond.secondary_obj_type cond.secondary_obj_class &&
       Q.le argument cond.argument, pi)
    | _, _ => (false, pi)
  | .damaged =>
    match primary with
    | some p =>
      (matchNe p cond.primary_obj_type cond.primary_obj_class &&
       Q.le argument cond.argument, pi)
    | none => (false, pi)
  | .destroyed =>
    match primary with
    | some p => (matchNe p cond.primary_obj_type cond.primary_obj_class, pi)
    | none => (false, pi)
  | .gameWon => (won, pi)

/-- `cyberiada_test_condition` with the single-level `second_cond` (AND)
    recursion: the nested condition is evaluated against world state only
    (`NULL, NULL, 0, 0`). -/
def testCondition (cond : Condition) (objs : List Object)
    (primary : Option Object) (pi : Nat) (secondary : Option Object)
    (argument : Q) (won : Bool) : Bool × Nat :=
  let r := testCore cond.core objs primary pi secondary argument won
  if r.1 then
    match cond.second_cond with
    | some c2 => testCore c2 objs none r.2 none Q.zero false
    | none => (true, r.2)
  else (false, r.2)

/-! ## The satisfaction matrix (`cyberiada_test_all_conditions`) -/

/-- The condition x object satisfaction matrix (allocated zeroed). -/
abbrev Mat := Nat → Nat → Bool

def matZero : Mat := fun _ _ => false

/-- `for (j = i + 1; j < conditions_count; j++) if (cond_matrix[j][k])`:
    some strictly later condition row is already set for object `k`. -/
def laterSat (condCount : Nat) (m : Mat) (i k : Nat) : Bool :=
  (List.range condCount).any (fun j => decide (i < j) && m j k)

/-- The matrix write performed for condition index `i` once its test
    returned true with actor `k` (lines 1100-1126 of `ursulalogcheck.c`):
    the GameWon row is set for every object index not blocked by a later
    row; any other row is set only at `k` and only when no later row is
    already set for `k`. -/
def condUpdate (condCount objCount : Nat) (m : Mat) (i : Nat) (isWon : Bool)
    (k : Nat) : Mat :=
  if isWon then
    fun a b =>
      if a = i ∧ b < objCount ∧ laterSat condCount m i b = false then true
      else m a b
  else
    if laterSat condCount m i k then m
    else fun a b => if a = i ∧ b = k then true else m a b

/-- One iteration of the condition loop of `cyberiada_test_all_conditions`:
    test condition `p.2` (stored at index `p.1`), thread the mutated
    `primary_index`, and on a match apply the matrix write. -/
def testAllStep (condCount objCount : Nat) (objs : List Object)
    (primary : Option Object) (secondary : Option Object) (argument : Q)
    (won : Bool) (acc : Mat × Nat) (p : Nat × Condition) : Mat × Nat :=
  let r := testCondition p.2 objs primary acc.2 secondary argument won
  if r.1 then
    (condUpdate condCount objCount acc.1 p.1
      (decide (p.2.core.ctype = ConditionType.gameWon)) r.2, r.2)
  else (acc.1, r.2)

/-- `cyberiada_test_all_conditions`: run every condition in storage order,
    threading the matrix and the (mutable) `primary_index` through the
    loop. -/
def testAll (conds : List Condition) (objs : List Object) (m : Mat)
    (primary : Option Object) (pi : Nat) (secondary : Option Object)
    (argument : Q) (won : Bool) : Mat × Nat :=
  conds.enum.foldl
    (testAllStep conds.length objs.length objs primary secondary argument won)
    (m, pi)

/-! ## The result byte -/

/-- `OR` of matrix row `i` over the first `objCount` columns. -/
def rowBit (m : Mat) (objCount i : Nat) : Bool :=
  (List.range objCount).any (fun j => m i j)

/-- `res |= (cond_bit << i)` over `i < condCount` (the accumulation loop at
    the end of `check_log`, written as recursion on the number of
    conditions). -/
def resultByte (m : Mat) (objCount : Nat) : Nat → Nat
  | 0 => 0
  | c + 1 =>
    resultByte m objCount c ||| ((if rowBit m objCount c then 1 else 0) <<< c)

/-! ## Scene ingestion -/

/-- One scene data row: 6 `|`-splits with both-side trimming, then the
    remainder.  `id` and `class` must be non-empty; field 2 (node id) is
    skipped; field 3 maps `mob`/`interactive_object`/other to the object
    type; field 4 is parsed as coordinates (also initializing `prev_pos`);
    field 5 and the remainder are `atof`ed into hp and damage. -/
def parseSceneRow (s : List Char) : Except Unit Object :=
  match splitN '|' 6 s with
  | none => .error ()
  | some (toks, rest) =>
    match toks.map trimBoth with
    | [t0, t1, _t2, t3, t4, t5] =>
      if t0.isEmpty then .error ()
      else if t1.isEmpty then .error ()
      else
        let ty : ObjectType :=
          if t3 = LOG_MOB then .mob
          else if t3 = LOG_INT_OBJECT then .intObject
          else .static
        match parseCoordinates t4 with
        | .error _ => .error ()
        | .ok p =>
          .ok { type := ty, cls := some (String.mk t1), id := some (String.mk t0),
                pos := p, prev_pos := p, hp := atofQ t5, damage := atofQ rest,
                pos_predefined := true }
    | _ => .error ()

/-- The synthesized Player appended at index `objects_count - 1`
    (lines 1242-1249).  Note the source's line 1246
    `objects[i].pos.y = objects[i].prev_pos.x = player_pos.y;`:
    `prev_pos.x` receives `player_pos.y` (overwriting the `player_pos.x`
    stored by line 1245) and `prev_pos.y` keeps the `memset` zero. -/
def mkPlayer (player_pos : Point) : Object :=
  { type := .player, cls := none, id := none,
    pos := ⟨player_pos.x, player_pos.y⟩,
    prev_pos := ⟨player_pos.y, Q.zero⟩,
    hp := Q.zero, damage := Q.zero, pos_predefined := true }

/-- Outcome of the first pass over the log (states `'p'`, `'s'` and the
    counting `'o'` state with `objects == NULL`). -/
inductive PhaseAOut
  | noScene
  | errA
  | counted (player_pos : Point) (cnt : Nat)
  deriving DecidableEq

/-- Counting `'o'` state: every line increments `objects_count`; the first
    line starting with `---` stops the count (and is itself counted — this
    is where the `+1` slot later filled by the Player comes from). -/
def phaseA_o (pp : Point) (cnt : Nat) : List Line → PhaseAOut
  | [] => .noScene
  | l :: ls =>
    if LOG_HLINE.isPrefixOf l then .counted pp (cnt + 1)
    else phaseA_o pp (cnt + 1) ls

/-- `'s'` state: skip lines until the scene table header. -/
def phaseA_s (pp : Point) : List Line → PhaseAOut
  | [] => .noScene
  | l :: ls =>
    if LOG_SCENE_OBJECT_HEADER.isPrefixOf l then phaseA_o pp 0 ls
    else phaseA_s pp ls

/-- `'p'` state: skip lines until `Player Start Position`, then parse the
    coordinates after the literal (failure aborts with
    `BAD_PARAMETERS`). -/
def phaseA : List Line → PhaseAOut
  | [] => .noScene
  | l :: ls =>
    if LOG_PLAYER_START_POSITION.isPrefixOf l then
      match parseCoordinates (l.drop LOG_PLAYER_START_POSITION.length) with
      | .error _ => .errA
      | .ok pp => phaseA_s pp ls
    else phaseA ls

/-- Outcome of the second pass (after `fseek(log, 0, SEEK_SET)`) up to and
    including the closing `---` of the scene table. -/
inductive SceneOut
  | noEnd
  | errS
  | built (objs : List Object) (rest : List Line)

/-- Filling `'o'` state: parse rows into successive slots until the first
    `---`, then check `i == objects_count - 1` and append the synthesized
    Player. -/
def buildRows (pp : Point) (cnt : Nat) (acc : List Object) :
    List Line → SceneOut
  | [] => .noEnd
  | l :: ls =>
    if LOG_HLINE.isPrefixOf l then
      if acc.length ≠ cnt - 1 then .errS
      else .built (acc ++ [mkPlayer pp]) ls
    else
      match parseSceneRow l with
      | .error _ => .errS
      | .ok o => buildRows pp cnt (acc ++ [o]) ls

/-- `'s'` state of the second pass: skip from the start of the file to the
    scene header again. -/
def findHeaderB (pp : Point) (cnt : Nat) : List Line → SceneOut
  | [] => .noEnd
  | l :: ls =>
    if LOG_SCENE_OBJECT_HEADER.isPrefixOf l then buildRows pp cnt [] ls
    else findHeaderB pp cnt ls

/-! ## Scene validation (the block after the closing `---`) -/

/-- The per-pair comparison of a base object against a runtime object
    (`types && classes && positions && hps && damages`, lines 1261-1274). -/
def baseMatch (b : BaseObject) (o : Object) : Bool :=
  let types := decide (b.type = o.type)
  let classes :=
    (match o.cls with
     | some s => decide (s ≠ "") && decide (b.cls ≠ "") && decide (b.cls = s)
     | none => false) || decide (b.cls = "")
  let positions :=
    (b.pos_predefined && distLe o.pos b.pos DELTA) || !b.pos_predefined
  let hps := (Q.lt Q.zero b.hp && Q.eqv b.hp o.hp) || Q.eqv b.hp Q.zero
  let damages :=
    (Q.lt Q.zero b.damage && Q.eqv b.damage o.damage) || Q.eqv b.damage Q.zero
  types && classes && positions && hps && damages

/-- The inner `for (j ...)` over base objects for one runtime object:
    `if (match && !valid) valid = 1`, i.e. pointwise `valid || match`.  The
    runtime object is NOT consumed or marked. -/
def markStep (bases : List BaseObject) (v : List Bool) (o : Object) :
    List Bool :=
  match bases, v with
  | b :: bs, vv :: vs => (vv || baseMatch b o) :: markStep bs vs o
  | [], vs => vs
  | _ :: _, [] => []

/-- The full base-object marking loop over all runtime objects. -/
def markBases (bases : List BaseObject) (objs : List Object) (v : List Bool) :
    List Bool :=
  objs.foldl (markStep bases) v

/-- One requirement against one runtime object:
    `req.type == o.type && strcmp(req.class, o.class) == 0`.  When the
    types agree and `o.class` is NULL (the synthesized Player), the
    `strcmp` dereferences a NULL pointer: the embedding returns `none`. -/
def reqMatchOne (r : ObjectReq) (o : Object) : Option Bool :=
  if r.type = o.type then
    match o.cls with
    | some s => some (decide (r.cls = s))
    | none => none
  else some false

/-- The inner requirement loop for one runtime object: which `found`
    counters to bump. -/
def reqScanObj (reqs : List ObjectReq) (o : Object) : Option (List Bool) :=
  match reqs with
  | [] => some []
  | r :: rs =>
    match reqMatchOne r o with
    | none => none
    | some b =>
      match reqScanObj rs o with
      | none => none
      | some bs => some (b :: bs)

/-- Bump the `found` counters flagged by one object's scan. -/
def addCounts : List Nat → List Bool → List Nat
  | f :: fs, b :: bs => (if b then f + 1 else f) :: addCounts fs bs
  | fs, [] => fs
  | [], _ :: _ => []

/-- `task->object_reqs[j].found++` accumulated over all runtime objects
    (outer loop over objects, inner over requirements, matching the
    source). -/
def countAllReqs : List Object → List ObjectReq → List Nat →
    Option (List Nat)
  | [], _, found => some found
  | o :: os, reqs, found =>
    match reqScanObj reqs o with
    | none => none
    | some bs => countAllReqs os reqs (addCounts found bs)

/-- `minimum <= found && found <= limit` for every requirement. -/
def reqsOk : List ObjectReq → List Nat → Bool
  | [], _ => true
  | _ :: _, [] => false
  | r :: rs, f :: fs =>
    decide (r.minimum ≤ f) && decide (f ≤ r.limit) && reqsOk rs fs

/-- The whole validation block (lines 1256-1317): mark base objects, bump
    requirement counters (both over the already-Player-extended object
    list), then require every base valid and every counter within bounds.
    `none` models the NULL-`strcmp` undefined behaviour in the requirement
    counting. -/
def validateStep (task : UrsulaCheckerTask) (vs : ValState)
    (objs : List Object) : Option (ValState × Bool) :=
  let valid := markBases task.base_objects objs vs.valid
  match countAllReqs objs task.object_reqs vs.found with
  | none => none
  | some found =>
    some (⟨valid, found⟩,
      valid.all (fun x => x) && reqsOk task.object_reqs found)

/-! ## The event loop (state `'l'`) -/

/-- `strcmp(s, objects[i].id) == 0` under the guard
    `objects[i].type != otPlayer` (a NULL id would be the Player's, which
    the guard excludes). -/
def idEq : Option String → List Char → Bool
  | some s, tok => decide (s.data = tok)
  | none, _ => false

/-- The attacker/target/victim lookup of the attack/attacked/died handlers:
    the loop has no `break`, so the LAST matching index wins. -/
def findActorLast (objs : List Object) (tok : List Char) : Option Nat :=
  objs.enum.foldl
    (fun acc p =>
      if (decide (p.2.type = ObjectType.player) && decide (tok = LOG_PLAYER))
          || (decide (p.2.type ≠ ObjectType.player) && idEq p.2.id tok) then
        some p.1
      else acc)
    none

/-- One `;`-separated entry of a position event: leading blanks skipped,
    first space-token is `Player...` (prefix) or an object id, `prev_pos`
    saved, the `position:` word skipped for non-Player entries, then the
    coordinates parsed. -/
def posEntry (objs : List Object) (entry : List Char) :
    Except Unit (List Object) :=
  let e := dropSpaces entry
  match splitFirst ' ' e with
  | none => .error ()
  | some (tok, rest) =>
    let isP := LOG_PLAYER.isPrefixOf tok
    let idx? : Option Nat :=
      if isP then objs.findIdx? (fun o => decide (o.type = ObjectType.player))
      else objs.findIdx?
        (fun o => decide (o.type ≠ ObjectType.player) && idEq o.id tok)
    match idx? with
    | none => .error ()
    | some i =>
      match objs.get? i with
      | none => .error ()
      | some o =>
        let src : Except Unit (List Char) :=
          if isP then .ok rest
          else
            match splitFirst ' ' rest with
            | none => .error ()
            | some (_, rest2) => .ok rest2
        match src with
        | .error _ => .error ()
        | .ok cs =>
          match parseCoordinates cs with
          | .error _ => .error ()
          | .ok p => .ok (objs.set i { o with prev_pos := o.pos, pos := p })

/-- The `while (*s)` loop over position entries.  The C loop stops after
    the entry with no `;` behind it, so a single trailing empty entry is
    never processed. -/
def posLine (objs : List Object) (s : List Char) :
    Except Unit (List Object) :=
  let entries := splitAllChar ';' s
  let entries := if entries.getLast? = some [] then entries.dropLast
                 else entries
  entries.foldlM posEntry objs

/-- The `attack ` handler: five space-splits (field 0 is the attacker,
    field 2 the damage), the remainder is the target id. -/
def attackLine (objs : List Object) (s : List Char) :
    Except Unit (Nat × Nat × Q) :=
  match splitN ' ' 5 s with
  | none => .error ()
  | some (toks, rest) =>
    match toks with
    | [t0, _t1, t2, _t3, _t4] =>
      match findActorLast objs t0 with
      | none => .error ()
      | some ai =>
        match findActorLast objs rest with
        | none => .error ()
        | some ti => .ok (ai, ti, atofQ t2)
    | _ => .error ()

/-- `if (*(d - 1) == ',') *(d - 1) = 0`: strip exactly one trailing
    comma from an `attacked` field. -/
def stripComma (t : List Char) : List Char :=
  match t.reverse with
  | ',' :: r => r.reverse
  | _ => t

/-- The `attacked ` handler: four space-splits with one trailing comma
    stripped per field; field 0 is the target, field 3 the damage. -/
def attackedLine (objs : List Object) (s : List Char) :
    Except Unit (Nat × Q) :=
  match splitN ' ' 4 s with
  | none => .error ()
  | some (toks, _rest) =>
    match toks.map stripComma with
    | [t0, _t1, _t2, t3] =>
      match findActorLast objs t0 with
      | none => .error ()
      | some ti => .ok (ti, atofQ t3)
    | _ => .error ()

/-- The `died` handler: the victim is the first space-token of the tail. -/
def diedLine (objs : List Object) (s : List Char) : Except Unit Nat :=
  match splitFirst ' ' s with
  | none => .error ()
  | some (t0, _) =>
    match findActorLast objs t0 with
    | none => .error ()
    | some di => .ok di

/-- The event-reading state `'l'` (lines 1394-1598): lines not starting
    with `[` are skipped; otherwise the `]` closes the time field and the
    trimmed tail is dispatched in source order (position / attack /
    attacked / died / Game Over / Session ended / error). -/
def eventLoop (task : UrsulaCheckerTask) :
    List Object → Mat → List Line → Except Unit Mat
  | _, m, [] => .ok m
  | objs, m, l :: ls =>
    match l with
    | [] => eventLoop task objs m ls
    | c :: s1 =>
      if c = '[' then
        match splitFirst ']' s1 with
        | none => .error ()
        | some (_, s2) =>
          let s := dropSpaces s2
          if containsSub LOG_POSITION s then
            match posLine objs s with
            | .error _ => .error ()
            | .ok objs2 =>
              eventLoop task objs2
                (testAll task.conditions objs2 m none 0 none Q.zero false).1 ls
          else if LOG_ATTACK.isPrefixOf s then
            match attackLine objs (s.drop LOG_ATTACK.length) with
            | .error _ => .error ()
            | .ok (ai, ti, dmg) =>
              eventLoop task objs
                (testAll task.conditions objs m (objs.get? ai) ai
                  (objs.get? ti) dmg false).1 ls
          else if LOG_ATTACKED.isPrefixOf s then
            match attackedLine objs (s.drop LOG_ATTACKED.length) with
            | .error _ => .error ()
            | .ok (ti, dmg) =>
              eventLoop task objs
                (testAll task.conditions objs m (objs.get? ti) ti none
                  dmg false).1 ls
          else if containsSub LOG_DIED s then
            match diedLine objs s with
            | .error _ => .error ()
            | .ok di =>
              eventLoop task objs
                (testAll task.conditions objs m (objs.get? di) di none
                  Q.zero false).1 ls
          else if LOG_GAME_OVER.isPrefixOf s then
            if s.drop LOG_GAME_OVER.length = LOG_WIN then
              eventLoop task objs
                (testAll task.conditions objs m none 0 none Q.zero true).1 ls
            else eventLoop task objs m ls
          else if LOG_SESSION_ENDED.isPrefixOf s then .ok m
          else .error ()
      else eventLoop task objs m ls

/-! ## The check operation -/

/-- The observable outcome of `cyberiada_ursula_log_checker_check_log`:
    the library return code (`err`), the result byte, and, on success, the
    exact string data the signature digest is computed from. -/
structure CheckOut where
  err : Nat
  result : Nat
  sig : Option (String × String × Int × Nat)
  deriving DecidableEq

/-- The `error_log:` exit: `BAD_PARAMETERS`, result forced to 0, no
    signature. -/
def errOut : CheckOut := ⟨1, 0, none⟩

/-- The success exit: `NO_ERROR`, the computed result, and the
    `"<secret>:<task>:<salt>:<result>"` digest input of `generate_code`. -/
def okOut (secret name : String) (salt : Int) (res : Nat) : CheckOut :=
  ⟨0, res, some (secret, name, salt, res)⟩

/-- `cyberiada_ursula_log_checker_check_log` for a resolved task: the first
    pass (`phaseA`) finds the player start and counts the scene rows, the
    rewind re-reads the scene (`findHeaderB`/`buildRows`), the validation
    block runs, then the event loop; EOF without a completed scene is a
    success with result 0.  `none` propagates the NULL-`strcmp` undefined
    behaviour of the requirement counting. -/
def checkLog (secret : String) (salt : Int) (task : UrsulaCheckerTask)
    (vs : ValState) (lines : List Line) : Option (ValState × CheckOut) :=
  match phaseA lines with
  | .errA => some (vs, errOut)
  | .noScene => some (vs, okOut secret task.name salt 0)
  | .counted pp cnt =>
    match findHeaderB pp cnt lines with
    | .noEnd => some (vs, okOut secret task.name salt 0)
    | .errS => some (vs, errOut)
    | .built objs rest =>
      match validateStep task vs objs with
      | none => none
      | some (vs2, ok) =>
        if ok then
          match eventLoop task objs matZero rest with
          | .error _ => some (vs2, errOut)
          | .ok m =>
            some (vs2, okOut secret task.name salt
              (resultByte m objs.length task.conditions.length))
        else some (vs2, errOut)

/-! ## Concrete inputs used by the counterexamples and witnesses -/

/-- A `1:win::::::0` condition (ordinal 1). -/
def winCondition : Condition :=
  ⟨⟨1, .gameWon, .player, "", .player, "", Q.zero⟩, none⟩

/-- A `3:win::::::0` condition (ordinal 3). -/
def winCondition3 : Condition :=
  ⟨⟨3, .gameWon, .player, "", .player, "", Q.zero⟩, none⟩

/-- A `1:proxy:player::mob:z:0` condition (ordinal 1, never satisfiable in
    the demo scene because the distance is positive and the argument 0). -/
def proximityCondition1 : Condition :=
  ⟨⟨1, .objectProximity, .player, "", .mob, "z", Q.zero⟩, none⟩

/-- A task with no base objects and no requirements. -/
def demoTask : UrsulaCheckerTask := ⟨"D", [], [], [winCondition]⟩

/-- A well-formed log: player start, scene header, one mob row, the closing
    `---`, a winning game-over event and the session end. -/
def sceneLog : List Line :=
  [ "Player Start Position (0, 0)".data,
    "ID | Name | Object ID | Type | Position | HP | Damage".data,
    "z1 | z | n | mob | (1, 1) | 5 | 1".data,
    "---".data,
    "[0] Game Over: Win".data,
    "[1] Session ended".data ]

/-- ## C5 inputs: a mob of class `zombie` that has just moved. -/
def c5zombie : Object :=
  { type := .mob, cls := some "zombie", id := some "z1",
    pos := ⟨⟨1, 1⟩, ⟨1, 1⟩⟩, prev_pos := ⟨⟨0, 1⟩, ⟨0, 1⟩⟩,
    hp := ⟨5, 1⟩, damage := ⟨1, 1⟩, pos_predefined := true }

def c5moving : CondCore :=
  ⟨1, .objectMoving, .mob, "zombie", .player, "", Q.zero⟩
def c5movingOther : CondCore :=
  ⟨1, .objectMoving, .mob, "skeleton", .player, "", Q.zero⟩
def c5damaged : CondCore :=
  ⟨1, .damaged, .mob, "zombie", .player, "", ⟨10, 1⟩⟩
def c5damagedOther : CondCore :=
  ⟨1, .damaged, .mob, "skeleton", .player, "", ⟨10, 1⟩⟩
def c5destroyed : CondCore :=
  ⟨1, .destroyed, .mob, "zombie", .player, "", Q.zero⟩
def c5destroyedOther : CondCore :=
  ⟨1, .destroyed, .mob, "skeleton", .player, "", Q.zero⟩

/-! ## Claim theorems -/

/-- C5 (code_bug): for the Moving, Damaged and Destroyed kinds the source
    compares classes with `strcmp(...)` and no `== 0` (lines 986, 1056,
    1066), so a non-Player object of the right type passes the filter
    exactly when its class DIFFERS from the configured class — the claim
    (and the obvious intent, see the spec's own open question) is the
    opposite.  Failing input: a moved mob of class `zombie` against a
    Moving/Damaged/Destroyed condition configured for mob class `zombie`:
    the condition does not match; with the configured class `skeleton` it
    does. -/
theorem C5_class_filter_inverted :
    testCore c5moving [c5zombie] none 0 none Q.zero false = (false, 0) ∧
    testCore c5movingOther [c5zombie] none 0 none Q.zero false = (true, 0) ∧
    testCore c5damaged [c5zombie] (some c5zombie) 0 none ⟨1, 1⟩ false
      = (false, 0) ∧
    testCore c5damagedOther [c5zombie] (some c5zombie) 0 none ⟨1, 1⟩ false
      = (true, 0) ∧
    testCore c5destroyed [c5zombie] (some c5zombie) 0 none Q.zero false
      = (false, 0) ∧
    testCore c5destroyedOther [c5zombie] (some c5zombie) 0 none Q.zero false
      = (true, 0) := by
  decide

/-- C6 (code_bug): the synthesized Player's `pos` equals the player start,
    but line 1246 (`objects[i].pos.y = objects[i].prev_pos.x =
    player_pos.y;`) writes `player_pos.y` into `prev_pos.x` and leaves
    `prev_pos.y` at the `memset` zero.  At player start `(4, 5)` the code
    produces `prev_pos = (5, 0)`, not `(4, 5)` as the claim states. -/
theorem C6_player_prev_pos_bug :
    (mkPlayer ⟨⟨4, 1⟩, ⟨5, 1⟩⟩).pos = ⟨⟨4, 1⟩, ⟨5, 1⟩⟩ ∧
    (mkPlayer ⟨⟨4, 1⟩, ⟨5, 1⟩⟩).prev_pos = ⟨⟨5, 1⟩, ⟨0, 1⟩⟩ ∧
    (mkPlayer ⟨⟨4, 1⟩, ⟨5, 1⟩⟩).prev_pos ≠ ⟨⟨4, 1⟩, ⟨5, 1⟩⟩ := by
  decide

/-- C9 (confirmed): inside the event-reading state any line whose first
    character is not `[` is skipped by the `if (*s != TIME_START_CHAR)
    continue;` at line 1397: the loop result is the same as if the line
    were absent, so no error is raised and neither the runtime objects nor
    the matrix change because of it. -/
theorem C9_non_bracket_lines_skipped (task : UrsulaCheckerTask)
    (objs : List Object) (m : Mat) (l : Line) (ls : List Line)
    (h : l.head? ≠ some '[') :
    eventLoop task objs m (l :: ls) = eventLoop task objs m ls := by
  cases l with
  | nil => simp [eventLoop]
  | cons c s1 =>
    have hc : ¬(c = '[') := by
      intro hcc
      exact h (by simp [hcc])
    simp [eventLoop, hc]

/-- Witness for C9 at a concrete skipped line. -/
theorem C9_non_bracket_lines_skipped_witness :
    ("hello".data : Line).head? ≠ some '[' ∧
    eventLoop demoTask [] matZero ["hello".data, "[0] x y".data] =
      eventLoop demoTask [] matZero ["[0] x y".data] :=
  ⟨by decide,
   C9_non_bracket_lines_skipped demoTask [] matZero "hello".data
     ["[0] x y".data] (by decide)⟩

/-- If some requirement in the list has the object's type and the object's
    class pointer is NULL, the requirement-counting scan hits
    `strcmp(req.class, NULL)`: the embedding yields `none`. -/
lemma reqScanObj_none_of_mem (reqs : List ObjectReq) (o : Object)
    (r : ObjectReq) (hr : r ∈ reqs) (ht : r.type = o.type)
    (hc : o.cls = none) : reqScanObj reqs o = none := by
  induction reqs with
  | nil => cases hr
  | cons r0 rs ih =>
    rcases List.mem_cons.mp hr with h | h
    · subst h
      simp [reqScanObj, reqMatchOne, ht, hc]
    · simp only [reqScanObj]
      cases hm : reqMatchOne r0 o with
      | none => rfl
      | some b => rw [ih h]

/-- If any object's scan is undefined, the whole counting loop is. -/
lemma countAllReqs_none_of_mem (objs : List Object) (reqs : List ObjectReq)
    (found : List Nat) (o : Object) (ho : o ∈ objs)
    (hscan : reqScanObj reqs o = none) :
    countAllReqs objs reqs found = none := by
  induction objs generalizing found with
  | nil => cases ho
  | cons o0 os ih =>
    rcases List.mem_cons.mp ho with h | h
    · subst h; simp [countAllReqs, hscan]
    · simp only [countAllReqs]
      cases hm : reqScanObj reqs o0 with
      | none => rfl
      | some bs => exact ih _ h

/-- C10 (confirmed): when a task has an `ObjectRequirement` of type Player,
    the requirement-counting loop reaches
    `strcmp(task->object_reqs[j].class, objects[i].class)` at the
    synthesized Player, whose `class` is NULL (`none`): in the total
    embedding with optional classes the comparison has no defined value,
    so the whole counting — and hence `checkLog` — is undefined (`none`)
    for every scene containing the synthesized Player. -/
theorem C10_player_requirement_reaches_null_class (reqs : List ObjectReq)
    (objs : List Object) (found : List Nat) (r : ObjectReq) (pp : Point)
    (hr : r ∈ reqs) (ht : r.type = ObjectType.player)
    (ho : mkPlayer pp ∈ objs) :
    countAllReqs objs reqs found = none :=
  countAllReqs_none_of_mem objs reqs found (mkPlayer pp) ho
    (reqScanObj_none_of_mem reqs (mkPlayer pp) r hr (by simpa [mkPlayer] using ht)
      rfl)

/-- Witness for C10 at a concrete Player-typed requirement. -/
theorem C10_player_requirement_reaches_null_class_witness :
    countAllReqs [mkPlayer ⟨Q.zero, Q.zero⟩]
      [⟨ObjectType.player, "", 1, 1⟩] [0] = none :=
  C10_player_requirement_reaches_null_class _ _ _
    ⟨ObjectType.player, "", 1, 1⟩ ⟨Q.zero, Q.zero⟩
    (by simp) rfl (by simp)

/-- Any cell already set survives a single matrix write. -/
lemma condUpdate_mono (condCount objCount : Nat) (m : Mat) (i : Nat)
    (w : Bool) (k a b : Nat) (h : m a b = true) :
    condUpdate condCount objCount m i w k a b = true := by
  unfold condUpdate
  cases w with
  | true =>
    simp only [if_true]
    by_cases hc : a = i ∧ b < objCount ∧ laterSat condCount m i b = false
    · rw [if_pos hc]
    · rw [if_neg hc]; exact h
  | false =>
    simp only [Bool.false_eq_true, if_false]
    by_cases hl : laterSat condCount m i k = true
    · rw [if_pos hl]; exact h
    · rw [if_neg hl]
      by_cases hc : a = i ∧ b = k
      · rw [if_pos hc]
      · rw [if_neg hc]; exact h

/-- One loop step preserves set cells. -/
lemma testAllStep_mono (condCount objCount : Nat) (objs : List Object)
    (primary secondary : Option Object) (argument : Q) (won : Bool)
    (acc : Mat × Nat) (p : Nat × Condition) (a b : Nat)
    (h : acc.1 a b = true) :
    (testAllStep condCount objCount objs primary secondary argument won
      acc p).1 a b = true := by
  unfold testAllStep
  dsimp only
  split
  · exact condUpdate_mono _ _ _ _ _ _ a b h
  · exact h

/-- Any cell already set survives the whole condition loop. -/
lemma testAllStep_foldl_mono (condCount objCount : Nat) (objs : List Object)
    (primary secondary : Option Object) (argument : Q) (won : Bool)
    (l : List (Nat × Condition)) :
    ∀ (m : Mat) (pi a b : Nat), m a b = true →
      (l.foldl (testAllStep condCount objCount objs primary secondary
        argument won) (m, pi)).1 a b = true := by
  induction l with
  | nil => intro m pi a b h; exact h
  | cons p ps ih =>
    intro m pi a b h
    rw [List.foldl_cons]
    exact ih _ _ a b
      (testAllStep_mono condCount objCount objs primary secondary argument
        won (m, pi) p a b h)

/-- C3 (confirmed): the matrix-update rule of
    `cyberiada_test_all_conditions` (lines 1096-1129).  When condition `i`
    tests as matched with actor `k`, the code applies `condUpdate`: for the
    GameWon kind every object index `k' < objects_count` whose column has
    no later row `j > i` already set receives `matrix[i][k'] = 1`, and
    blocked columns are left unchanged; for every other kind only the cell
    `(i, k)` is set, and only when no later row is already set for `k`
    (otherwise the matrix is returned untouched); set cells are never
    cleared, neither by a single write nor across the whole loop
    (`testAll`). -/
theorem C3_matrix_update_rule (condCount objCount : Nat) (m : Mat)
    (i k : Nat) :
    (∀ k', k' < objCount → laterSat condCount m i k' = false →
      condUpdate condCount objCount m i true k i k' = true) ∧
    (∀ k', laterSat condCount m i k' = true →
      condUpdate condCount objCount m i true k i k' = m i k') ∧
    (laterSat condCount m i k = false →
      condUpdate condCount objCount m i false k i k = true) ∧
    (laterSat condCount m i k = true →
      condUpdate condCount objCount m i false k = m) ∧
    (∀ w a b, m a b = true → condUpdate condCount objCount m i w k a b = true) ∧
    (∀ (conds : List Condition) (objs : List Object)
        (primary secondary : Option Object) (pi : Nat) (argument : Q)
        (won : Bool) (a b : Nat), m a b = true →
      (testAll conds objs m primary pi secondary argument won).1 a b = true)
    := by
  refine ⟨?_, ?_, ?_, ?_, ?_, ?_⟩
  · intro k' hk hl
    simp [condUpdate, hk, hl]
  · intro k' hl
    simp [condUpdate, hl]
  · intro hl
    simp [condUpdate, hl]
  · intro hl
    simp [condUpdate, hl]
  · intro w a b h
    exact condUpdate_mono _ _ _ _ _ _ a b h
  · intro conds objs primary secondary pi argument won a b h
    exact testAllStep_foldl_mono _ _ _ _ _ _ _ _ _ _ a b h

/-- Witness for C3: on the all-zero matrix with two conditions, a match of
    condition 0 by actor 1 sets cell `(0, 1)` (no later row blocks it). -/
theorem C3_matrix_update_rule_witness :
    laterSat 2 matZero 0 1 = false ∧
    condUpdate 2 2 matZero 0 false 1 0 1 = true :=
  ⟨by decide, (C3_matrix_update_rule 2 2 matZero 0 1).2.2.1 (by decide)⟩

/-- The accumulated result uses only the low `c` bits. -/
lemma resultByte_lt (m : Mat) (objCount : Nat) :
    ∀ c, resultByte m objCount c < 2 ^ c := by
  intro c
  induction c with
  | zero => simp [resultByte]
  | succ c ih =>
    unfold resultByte
    apply Nat.or_lt_two_pow
    · exact lt_trans ih (Nat.pow_lt_pow_right one_lt_two (Nat.lt_succ_self c))
    · rw [Nat.shiftLeft_eq]
      have h2 : (if rowBit m objCount c then 1 else 0) ≤ 1 := by
        split <;> omega
      calc (if rowBit m objCount c then 1 else 0) * 2 ^ c
          ≤ 1 * 2 ^ c := Nat.mul_le_mul_right _ h2
        _ = 2 ^ c := one_mul _
        _ < 2 ^ (c + 1) := Nat.pow_lt_pow_right one_lt_two (Nat.lt_succ_self c)

/-- C2 (corrected): in the result accumulation loop
    (`res |= cond_bit << i`) the shift amount `i` is the STORAGE index of
    the condition in the task's array, so bit `i` of the result byte is the
    OR of matrix row `i` — the row of the `(i+1)`-th stored condition, not
    of the condition with ordinal `n = i + 1`. -/
theorem C2_result_bit (m : Mat) (objCount condCount i : Nat)
    (h : i < condCount) :
    Nat.testBit (resultByte m objCount condCount) i = rowBit m objCount i := by
  induction condCount with
  | zero => cases h
  | succ c ih =>
    unfold resultByte
    rw [Nat.testBit_or]
    rcases Nat.lt_succ_iff_lt_or_eq.mp h with h2 | h2
    · rw [ih h2, Nat.testBit_shiftLeft]
      have : decide (i ≥ c) = false := by
        simp only [decide_eq_false_iff_not]
        omega
      rw [this]
      simp
    · subst h2
      rw [Nat.testBit_lt_two_pow (resultByte_lt m objCount i),
        Nat.testBit_shiftLeft]
      have hb : ∀ b : Bool, Nat.testBit (if b then 1 else 0) 0 = b := by
        intro b
        cases b <;> decide
      simp [hb]

/-- Witness for C2 at a concrete matrix: with two conditions and row 1 set
    everywhere, bit 1 of the result is the OR of row 1. -/
theorem C2_result_bit_witness :
    Nat.testBit (resultByte (fun i _ => decide (i = 1)) 2 2) 1 =
      rowBit (fun i _ => decide (i = 1)) 2 1 ∧
    rowBit (fun i _ => decide (i = 1)) 2 1 = true :=
  ⟨C2_result_bit (fun i _ => decide (i = 1)) 2 2 1 (by decide), by decide⟩

/-- The task of the C2 counterexample: condition ordinals 1 and 3 (storage
    indices 0 and 1), the second being `win`. -/
def c2task : UrsulaCheckerTask :=
  ⟨"T2", [], [], [proximityCondition1, winCondition3]⟩

/-- C2 counterexample: on `sceneLog` the task with condition ordinals
    `{1, 3}` produces result byte 2 (bit 1 set by the satisfied `win`
    condition with ordinal 3, which is STORED at index 1).  The claim
    requires bit `i` to be set exactly when the condition with ordinal
    `i + 1` was satisfied: it predicts bit 2 (result 4) for ordinal 3, and
    it forbids bit 1 because no condition with ordinal 2 exists — yet
    bit 1 is set. -/
theorem C2_counterexample :
    checkLog "s" 7 c2task ⟨[], []⟩ sceneLog =
      some (⟨[], []⟩, ⟨0, 2, some ("s", "T2", 7, 2)⟩) ∧
    Nat.testBit 2 1 = true ∧
    Nat.testBit 2 2 = false ∧
    (∀ c ∈ c2task.conditions, c.core.n ≠ 2) := by
  refine ⟨by decide, by decide, by decide, by decide⟩

/-- Head/tail decomposition of the marking loop: the flag of the first base
    and the flags of the remaining bases evolve independently. -/
lemma markBases_cons (b : BaseObject) (bs : List BaseObject)
    (objs : List Object) :
    ∀ (vv : Bool) (vs : List Bool),
      markBases (b :: bs) objs (vv :: vs) =
        (objs.foldl (fun x o => x || baseMatch b o) vv) :: markBases bs objs vs := by
  induction objs with
  | nil => intro vv vs; rfl
  | cons o os ih =>
    intro vv vs
    show markBases (b :: bs) os (markStep (b :: bs) (vv :: vs) o) = _
    rw [show markStep (b :: bs) (vv :: vs) o =
      (vv || baseMatch b o) :: markStep bs vs o from rfl]
    rw [ih (vv || baseMatch b o) (markStep bs vs o)]
    rfl

/-- `foldl` of `||` computes `start || any`. -/
lemma foldl_or_any (objs : List Object) (p : Object → Bool) :
    ∀ vv : Bool,
      objs.foldl (fun x o => x || p o) vv = (vv || objs.any p) := by
  induction objs with
  | nil => intro vv; simp
  | cons o os ih =>
    intro vv
    rw [List.foldl_cons, ih (vv || p o)]
    simp [Bool.or_assoc]

/-- Marking with an empty flag list stays empty. -/
lemma markBases_nil_flags (bases : List BaseObject) (objs : List Object) :
    markBases bases objs [] = [] := by
  induction objs with
  | nil => rfl
  | cons o os ih =>
    show markBases bases os (markStep bases [] o) = []
    cases bases with
    | nil => exact ih
    | cons b bs => exact ih

/-- Marking with no bases leaves the flags untouched. -/
lemma markBases_nil_bases (objs : List Object) :
    ∀ v, markBases [] objs v = v := by
  induction objs with
  | nil => intro v; rfl
  | cons o os ih =>
    intro v
    show markBases [] os (markStep [] v o) = v
    cases v with
    | nil => exact ih []
    | cons vv vs => exact ih (vv :: vs)

/-- Running the marking loop a second time changes nothing. -/
lemma markBases_idem (objs : List Object) :
    ∀ (bases : List BaseObject) (v : List Bool),
      markBases bases objs (markBases bases objs v) = markBases bases objs v := by
  intro bases
  induction bases with
  | nil => intro v; rw [markBases_nil_bases, markBases_nil_bases]
  | cons b bs ih =>
    intro v
    cases v with
    | nil => rw [markBases_nil_flags, markBases_nil_flags]
    | cons vv vs =>
      rw [markBases_cons, markBases_cons, foldl_or_any, foldl_or_any, ih vs]
      rw [Bool.or_assoc, Bool.or_self]

/-- C7 (corrected): the base-object validation marks base `b` `valid`
    exactly when SOME runtime object satisfies `b`'s constraints — runtime
    objects are never consumed or marked, so the same object can validate
    any number of identical bases.  Starting from all-unset flags, the
    base part of scene validation succeeds iff every base has at least one
    matching object. -/
theorem C7_amended (bases : List BaseObject) (objs : List Object) :
    markBases bases objs (List.replicate bases.length false) =
      bases.map (fun b => objs.any (fun o => baseMatch b o)) ∧
    (markBases bases objs (List.replicate bases.length false)).all
        (fun x => x) =
      bases.all (fun b => objs.any (fun o => baseMatch b o)) := by
  have h : markBases bases objs (List.replicate bases.length false) =
      bases.map (fun b => objs.any (fun o => baseMatch b o)) := by
    induction bases with
    | nil => rw [markBases_nil_bases]; rfl
    | cons b bs ih =>
      simp only [List.length_cons, List.replicate_succ]
      rw [markBases_cons, foldl_or_any, ih]
      simp
  refine ⟨h, ?_⟩
  rw [h]
  clear h
  induction bases with
  | nil => rfl
  | cons b bs ih => simp [ih]

/-- The duplicated base of the C7 counterexample. -/
def c7base : BaseObject :=
  ⟨.mob, "z", ⟨Q.zero, Q.zero⟩, false, Q.zero, Q.zero⟩

/-- The single mob that matches `c7base`. -/
def c7zombie : Object :=
  { type := .mob, cls := some "z", id := some "z1",
    pos := ⟨⟨1, 1⟩, ⟨1, 1⟩⟩, prev_pos := ⟨⟨1, 1⟩, ⟨1, 1⟩⟩,
    hp := Q.zero, damage := Q.zero, pos_predefined := true }

/-- A task with two identical base objects. -/
def c7task : UrsulaCheckerTask := ⟨"T7", [c7base, c7base], [], [winCondition]⟩

/-- C7 counterexample: a task with two identical BaseObjects and a scene
    with a SINGLE matching RuntimeObject passes validation (`ok = true`,
    both flags set) — the claim predicts a `BadParameters` failure because
    each RuntimeObject should be consumable by at most one BaseObject. -/
theorem C7_counterexample :
    validateStep c7task ⟨[false, false], []⟩
        [c7zombie, mkPlayer ⟨Q.zero, Q.zero⟩] =
      some (⟨[true, true], []⟩, true) := by
  decide

/-- C1 (corrected): every error exit of
    `cyberiada_ursula_log_checker_check_log` — including every `goto
    error_log` taken for a syntactic violation inside the event section
    (unknown event token, unknown object id, unterminated coordinate) —
    returns `URSULA_CHECK_BAD_PARAMETERS` (1); the public check operation
    never surfaces `URSULA_CHECK_FORMAT_ERROR` (2), even though
    `parse_coordinates` produces it internally. -/
theorem C1_check_never_returns_format_error (secret : String) (salt : Int)
    (task : UrsulaCheckerTask) (vs : ValState) (lines : List Line)
    (pr : ValState × CheckOut)
    (h : checkLog secret salt task vs lines = some pr) :
    pr.2.err ≠ 2 := by
  unfold checkLog at h
  repeat' split at h
  all_goals try cases h
  all_goals norm_num [errOut, okOut]

/-- Witness for C1: a successful concrete run has error code 0 ≠ 2. -/
theorem C1_check_never_returns_format_error_witness :
    (okOut "s" "D" 7 1).err ≠ 2 :=
  C1_check_never_returns_format_error "s" 7 demoTask ⟨[], []⟩ sceneLog
    (⟨[], []⟩, okOut "s" "D" 7 1) (by decide)

/-- A log whose event section contains an unrecognized event line. -/
def c1log : List Line :=
  [ "Player Start Position (0, 0)".data,
    "ID | Name | Object ID | Type | Position | HP | Damage".data,
    "z1 | z | n | mob | (1, 1) | 5 | 1".data,
    "---".data,
    "[0] foobar x".data ]

/-- C1 counterexample: the unrecognized event line `[0] foobar x` makes the
    check fail with error code 1 (`BAD_PARAMETERS`), not 2 (`FormatError`)
    as the claim states. -/
theorem C1_counterexample :
    checkLog "s" 7 demoTask ⟨[], []⟩ c1log = some (⟨[], []⟩, errOut) ∧
    errOut.err = 1 ∧ errOut.err ≠ 2 := by
  refine ⟨by decide, by decide, by decide⟩

/-- With no requirements the counting loop leaves `found` untouched. -/
lemma countAllReqs_nil_reqs (objs : List Object) :
    ∀ found, countAllReqs objs [] found = some found := by
  induction objs with
  | nil => intro found; rfl
  | cons o os ih =>
    intro found
    show countAllReqs os [] (addCounts found []) = some found
    cases found with
    | nil => exact ih []
    | cons f fs => exact ih (f :: fs)

/-- For a task without requirements, running the validation block a second
    time (on the task state the first run left behind) returns the same
    state and the same verdict: the `valid` flags are a monotone function
    of the scene only, and there are no `found` counters to overflow. -/
lemma validateStep_idem (task : UrsulaCheckerTask) (vs : ValState)
    (objs : List Object) (vs2 : ValState) (ok : Bool)
    (hreq : task.object_reqs = [])
    (h : validateStep task vs objs = some (vs2, ok)) :
    validateStep task vs2 objs = some (vs2, ok) := by
  unfold validateStep at h ⊢
  rw [hreq] at h ⊢
  rw [countAllReqs_nil_reqs] at h ⊢
  injection h with h2
  injection h2 with h3 h4
  subst h4
  subst h3
  simp only
  rw [markBases_idem]

/-- C4 (corrected, requires `object_reqs = []`): for a task WITHOUT object
    requirements, re-running `check` with the same `(task, salt, log)` on
    the same handle yields the identical `(ValState, result, signature)`,
    because the only cross-invocation state — the `BaseObject.valid`
    flags — is updated idempotently.  (With requirements present the
    `found` counters accumulate across runs and idempotence fails, see the
    counterexample.) -/
theorem C4_idempotent_without_requirements (secret : String) (salt : Int)
    (task : UrsulaCheckerTask) (vs vs1 : ValState) (out1 : CheckOut)
    (lines : List Line)
    (hreq : task.object_reqs = [])
    (h1 : checkLog secret salt task vs lines = some (vs1, out1)) :
    checkLog secret salt task vs1 lines = some (vs1, out1) := by
  unfold checkLog at h1 ⊢
  cases hA : phaseA lines with
  | errA =>
    rw [hA] at h1
    dsimp only at h1 ⊢
    injection h1 with h2
    injection h2 with h3 h4
    subst h3; subst h4; rfl
  | noScene =>
    rw [hA] at h1
    dsimp only at h1 ⊢
    injection h1 with h2
    injection h2 with h3 h4
    subst h3; subst h4; rfl
  | counted pp cnt =>
    rw [hA] at h1
    dsimp only at h1 ⊢
    cases hB : findHeaderB pp cnt lines with
    | noEnd =>
      rw [hB] at h1
      dsimp only at h1 ⊢
      injection h1 with h2
      injection h2 with h3 h4
      subst h3; subst h4; rfl
    | errS =>
      rw [hB] at h1
      dsimp only at h1 ⊢
      injection h1 with h2
      injection h2 with h3 h4
      subst h3; subst h4; rfl
    | built objs rest =>
      rw [hB] at h1
      dsimp only at h1 ⊢
      cases hV : validateStep task vs objs with
      | none =>
        rw [hV] at h1
        cases h1
      | some p =>
        obtain ⟨vs2, ok⟩ := p
        rw [hV] at h1
        have hV2 := validateStep_idem task vs objs vs2 ok hreq hV
        dsimp only at h1
        cases ok with
        | true =>
          simp only [if_true] at h1
          cases hE : eventLoop task objs matZero rest with
          | error e =>
            rw [hE] at h1
            injection h1 with h2
            injection h2 with h3 h4
            subst h3; subst h4
            rw [hV2]
            simp
          | ok m =>
            rw [hE] at h1
            injection h1 with h2
            injection h2 with h3 h4
            subst h3; subst h4
            rw [hV2]
            simp
        | false =>
          simp only [Bool.false_eq_true, if_false] at h1
          injection h1 with h2
          injection h2 with h3 h4
          subst h3; subst h4
          rw [hV2]
          simp

/-- A requirement-free task with one base object matching the demo mob. -/
def c4task : UrsulaCheckerTask := ⟨"T4", [c7base], [], [winCondition]⟩

/-- Witness for C4: a concrete requirement-free run, repeated on the
    mutated state the first run left, gives the identical outcome. -/
theorem C4_idempotent_without_requirements_witness :
    checkLog "s" 7 c4task ⟨[false], []⟩ sceneLog =
      some (⟨[true], []⟩, okOut "s" "T4" 7 1) ∧
    checkLog "s" 7 c4task ⟨[true], []⟩ sceneLog =
      some (⟨[true], []⟩, okOut "s" "T4" 7 1) :=
  ⟨by decide,
   C4_idempotent_without_requirements "s" 7 c4task ⟨[false], []⟩ ⟨[true], []⟩
     (okOut "s" "T4" 7 1) sceneLog rfl (by decide)⟩

/-- A task with the requirement `req:mob:z:1:1::`. -/
def c4reqTask : UrsulaCheckerTask :=
  ⟨"T", [], [⟨.mob, "z", 1, 1⟩], [winCondition]⟩

/-- C4 counterexample: with an object requirement (`minimum = limit = 1`)
    the first run on `sceneLog` succeeds with result byte 1 and bumps the
    persistent `found` counter to 1; the second run on the same handle and
    the same inputs bumps it to 2 > limit, fails scene validation and
    returns `BadParameters` with result 0 and no signature — the claim's
    unconditional idempotence is false. -/
theorem C4_counterexample :
    checkLog "s" 42 c4reqTask ⟨[], [0]⟩ sceneLog =
      some (⟨[], [1]⟩, okOut "s" "T" 42 1) ∧
    checkLog "s" 42 c4reqTask ⟨[], [1]⟩ sceneLog =
      some (⟨[], [2]⟩, errOut) ∧
    okOut "s" "T" 42 1 ≠ errOut := by
  refine ⟨by decide, by decide, by decide⟩

/-- The counting pass increments once per line after the header and stops
    at the FIRST `---`-prefixed line, which is itself counted. -/
lemma phaseA_o_count (pp : Point) (rest : List Line) (dl : Line)
    (hdl : LOG_HLINE.isPrefixOf dl = true) :
    ∀ (mid : List Line) (c : Nat),
      (∀ l ∈ mid, LOG_HLINE.isPrefixOf l = false) →
      phaseA_o pp c (mid ++ dl :: rest) = .counted pp (c + mid.length + 1) := by
  intro mid
  induction mid with
  | nil =>
    intro c _
    simp [phaseA_o, hdl]
  | cons l ms ih =>
    intro c hmid
    have hl : LOG_HLINE.isPrefixOf l = false :=
      hmid l (List.mem_cons_self l ms)
    simp only [List.cons_append, phaseA_o, hl, Bool.false_eq_true, if_false,
      List.append_eq]
    rw [ih (c + 1) (fun x hx => hmid x (List.mem_cons_of_mem l hx))]
    congr 1
    simp only [List.length_cons]
    omega

/-- The re-read pass parses one runtime object per line until the same
    first `---`, where it checks `i == objects_count - 1` and appends the
    synthesized Player. -/
lemma buildRows_ok (pp : Point) (rest : List Line) (dl : Line)
    (hdl : LOG_HLINE.isPrefixOf dl = true) :
    ∀ (mid : List Line) (acc : List Object) (cnt : Nat),
      (∀ l ∈ mid, LOG_HLINE.isPrefixOf l = false) →
      (∀ l ∈ mid, ∃ o, parseSceneRow l = .ok o) →
      acc.length + mid.length = cnt - 1 →
      ∃ os : List Object,
        buildRows pp cnt acc (mid ++ dl :: rest) =
          .built ((acc ++ os) ++ [mkPlayer pp]) rest ∧
        os.length = mid.length := by
  intro mid
  induction mid with
  | nil =>
    intro acc cnt _ _ hlen
    refine ⟨[], ?_, rfl⟩
    simp only [List.nil_append, buildRows, hdl, if_true]
    rw [if_neg (not_not_intro (by simpa using hlen))]
    simp
  | cons l ms ih =>
    intro acc cnt hmid hrows hlen
    obtain ⟨o, ho⟩ := hrows l (List.mem_cons_self l ms)
    have hl : LOG_HLINE.isPrefixOf l = false :=
      hmid l (List.mem_cons_self l ms)
    simp only [List.cons_append, buildRows, hl, Bool.false_eq_true, if_false,
      List.append_eq]
    rw [ho]
    dsimp only
    obtain ⟨os, h1, h2⟩ := ih (acc ++ [o]) cnt
      (fun x hx => hmid x (List.mem_cons_of_mem l hx))
      (fun x hx => hrows x (List.mem_cons_of_mem l hx))
      (by simp at hlen ⊢; omega)
    refine ⟨o :: os, ?_, by simp [h2]⟩
    rw [h1]
    simp

/-- C8 (corrected): the counting pass stops at the FIRST `---` after the
    scene header (not the second), counting every line including that
    delimiter (that is the `+1` slot later filled by the synthesized
    Player): for a header band followed by `mid` non-delimiter rows and one
    `---`, the allocation size is `mid.length + 1`; the re-read then
    parses exactly `objects_count - 1` rows and the Player fills the last
    slot. -/
theorem C8_two_phase_scene_count (pp : Point) (mid rest : List Line)
    (dl : Line)
    (hdl : LOG_HLINE.isPrefixOf dl = true)
    (hmid : ∀ l ∈ mid, LOG_HLINE.isPrefixOf l = false)
    (hrows : ∀ l ∈ mid, ∃ o, parseSceneRow l = .ok o) :
    phaseA_o pp 0 (mid ++ dl :: rest) = .counted pp (mid.length + 1) ∧
    ∃ os : List Object,
      buildRows pp (mid.length + 1) [] (mid ++ dl :: rest) =
        .built (os ++ [mkPlayer pp]) rest ∧
      os.length = (mid.length + 1) - 1 := by
  constructor
  · have h := phaseA_o_count pp rest dl hdl mid 0 hmid
    simpa using h
  · obtain ⟨os, h1, h2⟩ := buildRows_ok pp rest dl hdl mid [] (mid.length + 1)
      hmid hrows (by simp)
    exact ⟨os, by simpa using h1, by simpa using h2⟩

/-- The single scene row of the C8 witness. -/
def c8row : Line := "z1 | z | n | mob | (1, 1) | 5 | 1".data

/-- Witness for C8: one data row plus the delimiter count as 2 slots. -/
theorem C8_two_phase_scene_count_witness :
    phaseA_o ⟨Q.zero, Q.zero⟩ 0 [c8row, "---".data] =
      .counted ⟨Q.zero, Q.zero⟩ 2 := by
  have h := (C8_two_phase_scene_count ⟨Q.zero, Q.zero⟩ [c8row] [] "---".data
    (by decide)
    (by intro l hl; simp only [List.mem_singleton] at hl; subst hl; decide)
    (by intro l hl; simp only [List.mem_singleton] at hl; subst hl
        exact ⟨_, rfl⟩)).1
  simpa using h

/-- A log in the shape the claim describes: a `---` band right after the
    header, one object row, then the closing `---`. -/
def c8badlog : List Line :=
  [ "Player Start Position (0, 0)".data,
    "ID | Name | Object ID | Type | Position | HP | Damage".data,
    "---".data,
    "z1 | z | n | mob | (1, 1) | 5 | 1".data,
    "---".data ]

/-- C8 counterexample: on a log whose scene table has a `---` band right
    after the header and a second `---` after its one object row, the
    counting pass stops at the FIRST delimiter and allocates 1 slot — not
    the `1 + 1 = 2` slots the claim ("counts object rows until the second
    `---`", "+1 for the Player") predicts, and the object row is never
    ingested into the scene. -/
theorem C8_counterexample :
    phaseA c8badlog = .counted ⟨⟨0, 1⟩, ⟨0, 1⟩⟩ 1 ∧ (1 : Nat) ≠ 1 + 1 := by
  refine ⟨by decide, by decide⟩
